import Mathlib

/-!
Shallow embedding of the WorkoutNotification repository.

The repository contains two Python scripts that share most of their logic:
  * `daily_workout.py` — the one-shot variant: load `workouts.json`, pick the
    entry for the current UTC weekday, render it as HTML, and send one email.
  * `workOutNotification.py` — the long-running variant: module-level
    configuration loading, a scheduler loop, and its own copies of the
    selector and renderer.

Conventions of the embedding:
  * Python dictionaries holding the recognized keys are modelled as
    structures with `Option String` fields; `dict.get(k, default)` becomes
    `Option.getD`.
  * `exit(1)` is modelled by a dedicated constructor (or `none`) in the
    result type of the function that calls it.
  * The clock (`datetime.utcnow().weekday()` resp.
    `datetime.datetime.now().weekday()`) is an input parameter `today_index`.
  * The SMTP transport is an oracle parameter `Option SmtpErr`: `none` means
    the session succeeds, `some e` means the corresponding call raises `e`.
  * Strings are rendered exactly as the Python f-strings produce them; a
    literal brace of the CSS block is written with its character code.
  * The long-running script calls the undefined names `load_dotenv`, `json`
    and `schedule` (their imports are commented out at the top of the file)
    and evaluates `datetime.datetime.now()` with `datetime` bound to the
    class, an `AttributeError`.  These always-raising expressions are
    modelled as `Except` values carrying the corresponding error; the code
    behind them is embedded in source order, making it provable that it is
    unreachable.
-/

/-- One `exercises` element of the JSON document: recognized keys `name`,
`sets`, `rest`, `url`, each possibly absent. -/
structure Exercise where
  name : Option String
  sets : Option String
  rest : Option String
  url : Option String
deriving DecidableEq

/-- One `days` element of the JSON document: recognized keys `title` and
`exercises`. -/
structure DayEntry where
  title : Option String
  exercises : Option (List Exercise)
deriving DecidableEq

/-- The empty Python mapping `{}` returned by the long-running selector when
the day list is empty. -/
def DayEntry.emptyMap : DayEntry := ⟨none, none⟩

/-- Python truthiness of a mapping over the recognized keys: `{}` is falsy,
a mapping with at least one key is truthy. -/
def DayEntry.isTruthy (d : DayEntry) : Bool :=
  d.title.isSome || d.exercises.isSome

/-- Python truthiness of an optional string: `None` and `""` are falsy. -/
def truthy : Option String → Bool
  | none => false
  | some s => s != ""

/-- Concatenation of the strings accumulated by a Python `+=` loop. -/
def strConcat : List String → String
  | [] => ""
  | s :: rest => s ++ strConcat rest

/-- The hyperlink fragment `<a href="{url}" target="_blank">{name}</a>`
shared verbatim by both renderers. -/
def anchor (url name : String) : String :=
  "<a href=\"" ++ url ++ "\" target=\"_blank\">" ++ name ++ "</a>"

/-- Accumulator for `pyInt`: consumes decimal digits, failing on any other
character. -/
def pyDigitsAux : List Char → Nat → Option Nat
  | [], acc => some acc
  | c :: cs, acc =>
      if c.isDigit then pyDigitsAux cs (10 * acc + (c.toNat - 48)) else none

/-- Strip leading and trailing ASCII spaces, as Python `int()` does. -/
def stripSpaces (cs : List Char) : List Char :=
  ((cs.dropWhile (fun c => c == ' ')).reverse.dropWhile (fun c => c == ' ')).reverse

/-- Model of Python `int(s)` on decimal string literals: optional sign and a
nonempty run of digits after stripping spaces; `none` models the
`ValueError` raised on anything else.  Exotic accepted forms (underscore
separators, non-ASCII digits) are outside the model. -/
def pyInt (s : String) : Option Int :=
  match stripSpaces s.data with
  | [] => none
  | '+' :: rest =>
      if rest.isEmpty then none else (pyDigitsAux rest 0).map (fun n => (n : Int))
  | '-' :: rest =>
      if rest.isEmpty then none else (pyDigitsAux rest 0).map (fun n => -(n : Int))
  | cs => (pyDigitsAux cs 0).map (fun n => (n : Int))

/-- The five environment values both scripts read with `os.getenv`. -/
structure Env where
  smtp_server : Option String
  smtp_port : Option String
  email_address : Option String
  email_password : Option String
  recipient_email : Option String
deriving DecidableEq

/-- The `all([...])` check of `daily_workout.main`: every variable set and
nonempty. -/
def envAllPresent (env : Env) : Bool :=
  truthy env.smtp_server && truthy env.smtp_port && truthy env.email_address &&
    truthy env.email_password && truthy env.recipient_email

/-- Substring relation used to state facts about rendered HTML: `pat` occurs
contiguously in `s`. -/
def SubstrOf (pat s : String) : Prop :=
  ∃ u v, u ++ pat.data ++ v = s.data

/-- Boolean prefix test on character lists. -/
def leadsWith : List Char → List Char → Bool
  | [], _ => true
  | _ :: _, [] => false
  | p :: ps, c :: cs => p == c && leadsWith ps cs

/-- Boolean contiguous-occurrence test on character lists; scans every
suffix of `s` for `p` as a prefix. -/
def hasSub : List Char → List Char → Bool
  | [], p => p.isEmpty
  | c :: rest, p => leadsWith p (c :: rest) || hasSub rest p

/-- Errors the SMTP session can raise: connection, authentication, or
submission failure. -/
inductive SmtpErr
  | connectRefused
  | authRejected
  | submitRejected
deriving DecidableEq

/-- Python exceptions the two scripts can raise: `ValueError` from `int()`,
`AttributeError` from the broken `datetime.datetime` lookup, `NameError`
from calling a name whose import is commented out, and
`smtplib.SMTPException` subclasses from the transport. -/
inductive PyExc
  | valueError
  | attributeError
  | nameError (n : String)
  | smtpError (e : SmtpErr)
deriving DecidableEq

/-- The `with smtplib.SMTP(...)` block: connect, starttls, login, sendmail.
The oracle decides which step, if any, raises. -/
def smtpSession : Option SmtpErr → Except SmtpErr Unit
  | none => .ok ()
  | some e => .error e

/-- Observable outcome of one dispatcher call. -/
inductive SendResult
  | sent
  | errorLogged (msg : String)
  | skipped
deriving DecidableEq

/-- Trace of one dispatcher call: its outcome and whether an outbound
connection was opened. -/
structure SendTrace where
  result : SendResult
  networkAttempted : Bool
deriving DecidableEq

/-- Trace of one full run of the one-shot script: the process exit code,
whether an outbound connection was opened, and the dispatcher outcome when
the dispatcher was reached. -/
structure RunTrace where
  exitCode : Nat
  networkAttempted : Bool
  send : Option SendResult
deriving DecidableEq

/-- Result of the module-level configuration block of the long-running
script. -/
inductive StartupResult
  | fatalMissing (vars : List String)
  | fatalBadPort (portStr : String)
  | started (port : Int)
deriving DecidableEq

namespace daily_workout

/-- Fixed head of the one-shot HTML template, up to the interpolated title. -/
def hdrPre : String :=
  "    <html>\n    <head>\n        <style>\n            body \x7b\n                font-family: Arial, sans-serif;\n            \x7d\n            .day-title \x7b\n                background-color: #f2f2f2;\n                padding: 10px;\n                border-radius: 5px;\n                font-size: 20px;\n                margin-bottom: 20px;\n            \x7d\n            .exercise \x7b\n                margin-bottom: 15px;\n            \x7d\n            .exercise a \x7b\n                text-decoration: none;\n                color: #007BFF;\n            \x7d\n        </style>\n    </head>\n    <body>\n        <div class=\"day-title\">"

/-- Fixed text between the interpolated title and the exercise loop. -/
def hdrSuf : String := "</div>\n    "

/-- Fixed text of one exercise block before the interpolated name. -/
def exDivPre : String :=
  "\n        <div class=\"exercise\">\n            <p><strong>"

/-- Fixed text between the interpolated name and the interpolated sets. -/
def exDivMid1 : String := "</strong></p>\n            <p>Sets/Reps: "

/-- Fixed text between the interpolated sets and the interpolated rest. -/
def exDivMid2 : String := "</p>\n            <p>Rest: "

/-- Fixed tail of one exercise block. -/
def exDivSuf : String := "</p>\n        </div>\n        "

/-- Fixed closing block of the one-shot template. -/
def htmlFooter : String :=
  "\n        <p><em>Tip:</em> Always warm up properly, focus on form, and stay hydrated!</p>\n    </body>\n    </html>\n    "

/-- Body of the exercise loop of `daily_workout.build_workout_html`:
`name` defaults to `"Unknown Exercise"`, `sets`/`rest`/`url` default to
`""`, and the name is wrapped in a hyperlink exactly when `url` is truthy. -/
def renderExercise (ex : Exercise) : String :=
  exDivPre ++
    (if ex.url.getD "" = "" then ex.name.getD "Unknown Exercise"
     else anchor (ex.url.getD "") (ex.name.getD "Unknown Exercise")) ++
    exDivMid1 ++ ex.sets.getD "" ++ exDivMid2 ++ ex.rest.getD "" ++ exDivSuf

/-- `daily_workout.build_workout_html`: header with interpolated title
(default `"Workout"`), one block per exercise, fixed footer. -/
def build_workout_html (day_info : DayEntry) : String :=
  hdrPre ++ day_info.title.getD "Workout" ++ hdrSuf ++
    strConcat ((day_info.exercises.getD []).map renderExercise) ++ htmlFooter

/-- `daily_workout.load_workouts` after JSON parsing succeeded: take the
`days` key (default `[]`) and call `exit(1)` — modelled as `none` — when the
list is empty. -/
def load_workouts (doc : Option (List DayEntry)) : Option (List DayEntry) :=
  let days := doc.getD []
  if days.isEmpty then none else some days

/-- `daily_workout.get_today_workout`: return `days_list[today_index]` when
the UTC weekday index is in range, otherwise log and `exit(1)` — modelled as
`none`. -/
def get_today_workout (days_list : List DayEntry) (today_index : Nat) : Option DayEntry :=
  if h : today_index < days_list.length then some (days_list.get ⟨today_index, h⟩)
  else none

/-- Log line chosen by the two `except` clauses of
`daily_workout.send_email`: `smtplib.SMTPException` has a dedicated message,
everything else falls to the generic handler. -/
def logFor : PyExc → String
  | .smtpError _ => "SMTP error when sending email"
  | _ => "Unexpected error when sending email"

/-- Body of the `try` block of `daily_workout.send_email`: `int(smtp_port)`
is evaluated first (raising `ValueError` before any connection is opened);
then the SMTP session runs.  The `Bool` records whether a connection was
opened. -/
def send_email_try (smtp_port : String) (transport : Option SmtpErr) :
    Except PyExc Unit × Bool :=
  match pyInt smtp_port with
  | none => (.error .valueError, false)
  | some _ =>
      match smtpSession transport with
      | .ok _ => (.ok (), true)
      | .error e => (.error (.smtpError e), true)

/-- `daily_workout.send_email`: the `try` body wrapped in the two `except`
clauses, which catch every exception and log it; the function always returns
normally. -/
def send_email (smtp_port : String) (transport : Option SmtpErr) : SendTrace :=
  match send_email_try smtp_port transport with
  | (.ok _, att) => ⟨.sent, att⟩
  | (.error e, att) => ⟨.errorLogged (logFor e), att⟩

/-- `daily_workout.main`: load the document, select the day, build the HTML,
check the five environment variables, and dispatch.  Each `exit(1)` becomes
exit code 1; falling off the end of `main` becomes exit code 0. -/
def run (doc : Option (List DayEntry)) (weekday : Nat) (env : Env)
    (transport : Option SmtpErr) : RunTrace :=
  match load_workouts doc with
  | none => ⟨1, false, none⟩
  | some days =>
      match get_today_workout days weekday with
      | none => ⟨1, false, none⟩
      | some workout_today =>
          let _html := build_workout_html workout_today
          if envAllPresent env then
            let t := send_email (env.smtp_port.getD "") transport
            ⟨0, t.networkAttempted, some t.result⟩
          else ⟨1, false, none⟩

end daily_workout

namespace workOutNotification

/-- Fixed head of the long-running HTML template, up to the interpolated
title. -/
def hdrPre : String :=
  "    <html>\n    <head>\n        <style>\n            body \x7b\n                font-family: Arial, sans-serif;\n            \x7d\n            .day-title \x7b\n                font-weight: bold;\n                font-size: 18px;\n                margin-bottom: 10px;\n            \x7d\n            .exercise \x7b\n                margin-bottom: 10px;\n            \x7d\n            .exercise a \x7b\n                text-decoration: none;\n                color: #0066cc;\n            \x7d\n        </style>\n    </head>\n    <body>\n        <div class=\"day-title\">"

/-- Fixed text between the interpolated title and the exercise loop. -/
def hdrSuf : String := "</div>\n    "

/-- Fixed text of the hyperlink exercise block before the anchor. -/
def exDivPreUrl : String :=
  "\n            <div class=\"exercise\">\n                <p>\n                    <strong>\n                        "

/-- Fixed text of the hyperlink exercise block between the anchor and the
interpolated sets. -/
def exDivMid1Url : String :=
  "\n                    </strong>\n                </p>\n                <p>Sets/Reps: "

/-- Fixed text of the plain exercise block before the interpolated name. -/
def exDivPreNoUrl : String :=
  "\n            <div class=\"exercise\">\n                <p><strong>"

/-- Fixed text of the plain exercise block between the interpolated name and
the interpolated sets. -/
def exDivMid1NoUrl : String := "</strong></p>\n                <p>Sets/Reps: "

/-- Fixed text between the interpolated sets and the interpolated rest,
shared by both exercise blocks. -/
def exDivMid2 : String := "</p>\n                <p>Rest: "

/-- Fixed tail of both exercise blocks. -/
def exDivSuf : String := "</p>\n            </div>\n            "

/-- Fixed closing block of the long-running template. -/
def htmlFooter : String :=
  "\n        <p><em>Tip:</em> Stay hydrated and track your progress. Enjoy your workout!</p>\n    </body>\n    </html>\n    "

/-- Body of the exercise loop of `workOutNotification.build_workout_html`:
`name`/`sets`/`rest` default to `""`, `url` defaults to `None`, and the
`if url:` branch picks the hyperlink block exactly when `url` is truthy. -/
def renderExercise (ex : Exercise) : String :=
  if truthy ex.url then
    exDivPreUrl ++ anchor (ex.url.getD "") (ex.name.getD "") ++
      exDivMid1Url ++ ex.sets.getD "" ++ exDivMid2 ++ ex.rest.getD "" ++ exDivSuf
  else
    exDivPreNoUrl ++ ex.name.getD "" ++
      exDivMid1NoUrl ++ ex.sets.getD "" ++ exDivMid2 ++ ex.rest.getD "" ++ exDivSuf

/-- `workOutNotification.build_workout_html`: header with interpolated title
(default `"Workout"`), one block per exercise, fixed footer. -/
def build_workout_html (day_info : DayEntry) : String :=
  hdrPre ++ day_info.title.getD "Workout" ++ hdrSuf ++
    strConcat ((day_info.exercises.getD []).map renderExercise) ++ htmlFooter

/-- The `missing_vars` accumulation of the module-level configuration block,
in source order. -/
def missing_vars (env : Env) : List String :=
  (if truthy env.smtp_server then [] else ["SMTP_SERVER"]) ++
  (if truthy env.smtp_port then [] else ["SMTP_PORT"]) ++
  (if truthy env.email_address then [] else ["EMAIL_ADDRESS"]) ++
  (if truthy env.email_password then [] else ["EMAIL_PASSWORD"]) ++
  (if truthy env.recipient_email then [] else ["RECIPIENT_EMAIL"])

/-- Line 43 of the long-running script: `load_dotenv()` — the `dotenv`
line of the import block (line 8) is commented out, so the name is
undefined and the call raises `NameError` on every run, immediately after
`os.environ.clear()` has emptied the environment. -/
def load_dotenv_call : Except PyExc Unit := .error (.nameError "load_dotenv")

/-- Lines 45-70 of the long-running script: read the five values, collect
the missing names, `exit(1)` when any is missing, then
`SMTP_PORT = int(SMTP_PORT)` with `exit(1)` on `ValueError`.  Dead code:
module execution raises on line 43 before reaching it, so no outcome of
this check is ever produced. -/
def configCheck (env : Env) : StartupResult :=
  let miss := missing_vars env
  if miss.isEmpty then
    match pyInt (env.smtp_port.getD "") with
    | none => .fatalBadPort (env.smtp_port.getD "")
    | some p => .started p
  else .fatalMissing miss

/-- Line 80 of the long-running script: `json.load(f)` — the `json` import
is commented out, so the lookup raises `NameError`, which neither
surrounding handler (`FileNotFoundError`, `json.JSONDecodeError`) catches.
Dead code behind the line-43 crash. -/
def json_load_call (_doc : Option (List DayEntry)) :
    Except PyExc (Option (List DayEntry)) := .error (.nameError "json")

/-- Lines 88-91 of the long-running script: take the `days` key (default
`[]`) and log a warning — never exit — when the list is empty, returning
the list and whether the warning fired.  Doubly dead code: module execution
raises on line 43, and even past that, line 80 would raise before these
lines run. -/
def load_days (doc : Option (List DayEntry)) : List DayEntry × Bool :=
  let days_list := doc.getD []
  (days_list, days_list.isEmpty)

/-- Result of executing the module-level statements of the long-running
script: an uncaught exception (process dies with a non-zero exit), an
explicit `exit(1)`, or a fully initialised module. -/
inductive ModuleInit
  | crashed (e : PyExc)
  | exited
  | ready (port : Int) (days : List DayEntry) (warned : Bool)
deriving DecidableEq

/-- Module-level execution of the long-running script, lines 42-91, in
source order: the `load_dotenv()` call, the environment check and port
parse, the JSON load, and the `days_list` handling.  Every run crashes at
the first step with `NameError`, before any environment value, the port,
or the document is read, so the `exited` and `ready` outcomes are
unreachable. -/
def module_run (env : Env) (doc : Option (List DayEntry)) : ModuleInit :=
  match load_dotenv_call with
  | .error e => .crashed e
  | .ok _ =>
      match configCheck env with
      | .fatalMissing _ => .exited
      | .fatalBadPort _ => .exited
      | .started port =>
          match json_load_call doc with
          | .error e => .crashed e
          | .ok parsed =>
              let ld := load_days parsed
              .ready port ld.1 ld.2

/-- The clock read of lines 173 and 195: `datetime.datetime.now()`, where
`datetime` is the class imported on line 17 and has no `datetime`
attribute — the expression raises `AttributeError` on every evaluation,
before `.weekday()` could produce an index. -/
def clockNow : Except PyExc Nat := .error .attributeError

/-- Lines 176-181 of the long-running selector: the bounds check with a
silent fallback to `days_list[0]`, or to the empty mapping when the list is
empty.  Dead code: control reaches it only if the clock read on line 173
returned an index, which it never does. -/
def selectorFallback (days_list : List DayEntry) (today_index : Nat) : DayEntry :=
  if h : today_index < days_list.length then days_list.get ⟨today_index, h⟩
  else days_list.headD DayEntry.emptyMap

/-- `workOutNotification.get_today_workout`: its first statement evaluates
the broken clock read, so the function raises `AttributeError` on every
call and never returns an entry; the selection logic after it is dead. -/
def get_today_workout (days_list : List DayEntry) : Except PyExc DayEntry :=
  match clockNow with
  | .error e => .error e
  | .ok today_index => .ok (selectorFallback days_list today_index)

/-- Log line chosen by the two `except` clauses of
`workOutNotification.send_daily_workout`. -/
def logFor : PyExc → String
  | .smtpError _ => "SMTP error when sending email"
  | _ => "Unexpected error"

/-- `workOutNotification.send_daily_workout`: the selector call on line 190
and the second broken clock read in the subject f-string on line 195 both
run before the `try` block of lines 205-214, so the `AttributeError`
escapes the function on every call; the handlers around the SMTP session
are reached on no execution. -/
def send_daily_workout (days : List DayEntry) (transport : Option SmtpErr) :
    Except PyExc SendTrace :=
  match get_today_workout days with
  | .error e => .error e
  | .ok workout_for_today =>
      if workout_for_today.isTruthy then
        match clockNow with
        | .error e => .error e
        | .ok _ =>
            let _html := build_workout_html workout_for_today
            match smtpSession transport with
            | .ok _ => .ok ⟨.sent, true⟩
            | .error e => .ok ⟨.errorLogged (logFor (.smtpError e)), true⟩
      else .ok ⟨.skipped, false⟩

/-- One pass of the scheduler loop body `schedule.run_pending();
time.sleep(60)` (lines 227-228), were the loop ever entered: `schedule` is
an undefined name, so the pass raises `NameError` at once instead of firing
or continuing; `main` itself already raises on line 223 for the same
reason, and the script's main block calls the plain-text `send_email`,
never `main`. -/
def loop_iteration : Except PyExc Unit := .error (.nameError "schedule")

end workOutNotification

/-- The exercise of the end-to-end scenario of the specification. -/
def sampleEx : Exercise :=
  ⟨some "Squat", some "5x5", some "90s", some "http://example.com/squat"⟩

/-- The day entry of the end-to-end scenario of the specification. -/
def sampleDay : DayEntry := ⟨some "Leg Day", some [sampleEx]⟩

/-- A fully-populated environment with a parseable port. -/
def goodEnv : Env :=
  ⟨some "smtp.example.com", some "587", some "user@example.com",
    some "secret", some "dest@example.com"⟩

/-- A fully-populated environment whose port is not integer-parseable. -/
def badPortEnv : Env :=
  ⟨some "smtp.example.com", some "abc", some "user@example.com",
    some "secret", some "dest@example.com"⟩

/-- First of two distinguishable day entries. -/
def dayA : DayEntry := ⟨some "A", some []⟩

/-- Second of two distinguishable day entries. -/
def dayB : DayEntry := ⟨some "B", some []⟩

/-- A day entry whose single exercise has no `name` key. -/
def nameAbsentDay : DayEntry :=
  ⟨some "Day", some [⟨none, some "3x10", some "60s", none⟩]⟩

/-- Appending strings appends their character lists. -/
theorem strData_append (a b : String) : (a ++ b).data = a.data ++ b.data := rfl

/-- The empty string occurs in every string. -/
theorem substr_empty (s : String) : SubstrOf "" s :=
  ⟨[], s.data, rfl⟩

/-- A string occurs in itself followed by anything. -/
theorem substr_start (pat b : String) : SubstrOf pat (pat ++ b) :=
  ⟨[], b.data, rfl⟩

/-- A string occurs in anything followed by itself. -/
theorem substr_end (a pat : String) : SubstrOf pat (a ++ pat) :=
  ⟨a.data, [], by simp [strData_append]⟩

/-- Occurrence is preserved by appending on the left. -/
theorem substr_left (a : String) {pat s : String} (h : SubstrOf pat s) :
    SubstrOf pat (a ++ s) := by
  obtain ⟨u, v, huv⟩ := h
  exact ⟨a.data ++ u, v, by rw [strData_append, ← huv]; simp [List.append_assoc]⟩

/-- Occurrence is preserved by appending on the right. -/
theorem substr_right (b : String) {pat s : String} (h : SubstrOf pat s) :
    SubstrOf pat (s ++ b) := by
  obtain ⟨u, v, huv⟩ := h
  exact ⟨u, v ++ b.data, by rw [strData_append, ← huv]; simp [List.append_assoc]⟩

/-- Occurrence is transitive. -/
theorem substr_trans {a b c : String} (h1 : SubstrOf a b) (h2 : SubstrOf b c) :
    SubstrOf a c := by
  obtain ⟨p, q, hpq⟩ := h1
  obtain ⟨u, v, huv⟩ := h2
  exact ⟨u ++ p, q ++ v, by rw [← huv, ← hpq]; simp [List.append_assoc]⟩

/-- Soundness and completeness of the boolean prefix test. -/
theorem leadsWith_iff (p s : List Char) : leadsWith p s = true ↔ ∃ t, p ++ t = s := by
  induction p generalizing s with
  | nil => simp [leadsWith]
  | cons c cs ih =>
      cases s with
      | nil => simp [leadsWith]
      | cons d ds =>
          simp only [leadsWith, Bool.and_eq_true, beq_iff_eq, ih, List.cons_append,
            List.cons.injEq]
          constructor
          · rintro ⟨h1, t, h2⟩
            exact ⟨t, h1, h2⟩
          · rintro ⟨t, h1, h2⟩
            exact ⟨h1, t, h2⟩

/-- Soundness and completeness of the boolean occurrence test. -/
theorem hasSub_iff (s p : List Char) : hasSub s p = true ↔ ∃ u v, u ++ p ++ v = s := by
  induction s with
  | nil =>
      simp only [hasSub, List.isEmpty_iff]
      constructor
      · rintro rfl
        exact ⟨[], [], rfl⟩
      · rintro ⟨u, v, huv⟩
        rcases List.append_eq_nil.mp huv with ⟨h1, h2⟩
        rcases List.append_eq_nil.mp (by simpa using h1) with ⟨-, h3⟩
        exact h3
  | cons c rest ih =>
      simp only [hasSub, Bool.or_eq_true, leadsWith_iff, ih]
      constructor
      · rintro (⟨t, ht⟩ | ⟨u, v, huv⟩)
        · exact ⟨[], t, by simpa using ht⟩
        · exact ⟨c :: u, v, by simp [huv]⟩
      · rintro ⟨u, v, huv⟩
        cases u with
        | nil => exact Or.inl ⟨v, by simpa using huv⟩
        | cons a u' =>
            simp only [List.cons_append, List.cons.injEq] at huv
            exact Or.inr ⟨u', v, huv.2⟩

/-- A fragment produced for a list member occurs in the concatenation of all
fragments. -/
theorem strConcat_mem_substr {α : Type} (f : α → String) (l : List α) (x : α)
    (hx : x ∈ l) : SubstrOf (f x) (strConcat (l.map f)) := by
  induction l with
  | nil => cases hx
  | cons a t ih =>
      rcases List.mem_cons.mp hx with h | h
      · subst h
        exact substr_start (f x) (strConcat (t.map f))
      · exact substr_left (f a) (ih h)

/-- When every environment value is truthy the missing-variable list is
empty. -/
theorem missing_vars_of_allPresent (env : Env) (h : envAllPresent env = true) :
    workOutNotification.missing_vars env = [] := by
  simp only [envAllPresent, Bool.and_eq_true] at h
  obtain ⟨⟨⟨⟨h1, h2⟩, h3⟩, h4⟩, h5⟩ := h
  simp [workOutNotification.missing_vars, h1, h2, h3, h4, h5]

/-- Every present field value of an exercise occurs verbatim in the one-shot
exercise fragment. -/
theorem dw_field_substr (ex : Exercise) (v : String)
    (h : ex.name = some v ∨ ex.sets = some v ∨ ex.rest = some v ∨ ex.url = some v) :
    SubstrOf v (daily_workout.renderExercise ex) := by
  unfold daily_workout.renderExercise
  rcases h with h | h | h | h
  · rw [h]
    simp only [Option.getD_some]
    by_cases hc : ex.url.getD "" = ""
    · rw [if_pos hc]
      exact substr_right _ (substr_right _ (substr_right _ (substr_right _
        (substr_right _ (substr_end daily_workout.exDivPre v)))))
    · rw [if_neg hc]
      have h1 : SubstrOf v (anchor (ex.url.getD "") v) := by
        unfold anchor
        exact substr_right _ (substr_end _ v)
      exact substr_trans h1
        (substr_right _ (substr_right _ (substr_right _ (substr_right _
          (substr_right _ (substr_end daily_workout.exDivPre _))))))
  · rw [h]
    simp only [Option.getD_some]
    exact substr_right _ (substr_right _ (substr_right _ (substr_end _ v)))
  · rw [h]
    simp only [Option.getD_some]
    exact substr_right _ (substr_end _ v)
  · by_cases hv : v = ""
    · subst hv
      exact substr_empty _
    · rw [h]
      simp only [Option.getD_some]
      rw [if_neg hv]
      have h1 : SubstrOf v (anchor v (ex.name.getD "Unknown Exercise")) := by
        unfold anchor
        exact substr_right _ (substr_right _ (substr_right _ (substr_end _ v)))
      exact substr_trans h1
        (substr_right _ (substr_right _ (substr_right _ (substr_right _
          (substr_right _ (substr_end daily_workout.exDivPre _))))))

/-- Every present field value of an exercise occurs verbatim in the
long-running exercise fragment. -/
theorem wn_field_substr (ex : Exercise) (v : String)
    (h : ex.name = some v ∨ ex.sets = some v ∨ ex.rest = some v ∨ ex.url = some v) :
    SubstrOf v (workOutNotification.renderExercise ex) := by
  unfold workOutNotification.renderExercise
  rcases h with h | h | h | h
  · rw [h]
    simp only [Option.getD_some]
    by_cases hc : truthy ex.url = true
    · rw [if_pos hc]
      have h1 : SubstrOf v (anchor (ex.url.getD "") v) := by
        unfold anchor
        exact substr_right _ (substr_end _ v)
      exact substr_trans h1
        (substr_right _ (substr_right _ (substr_right _ (substr_right _
          (substr_right _ (substr_end workOutNotification.exDivPreUrl _))))))
    · rw [if_neg hc]
      exact substr_right _ (substr_right _ (substr_right _ (substr_right _
        (substr_right _ (substr_end workOutNotification.exDivPreNoUrl v)))))
  · rw [h]
    simp only [Option.getD_some]
    by_cases hc : truthy ex.url = true
    · rw [if_pos hc]
      exact substr_right _ (substr_right _ (substr_right _ (substr_end _ v)))
    · rw [if_neg hc]
      exact substr_right _ (substr_right _ (substr_right _ (substr_end _ v)))
  · rw [h]
    simp only [Option.getD_some]
    by_cases hc : truthy ex.url = true
    · rw [if_pos hc]
      exact substr_right _ (substr_end _ v)
    · rw [if_neg hc]
      exact substr_right _ (substr_end _ v)
  · by_cases hv : v = ""
    · subst hv
      exact substr_empty _
    · have hc : truthy ex.url = true := by simp [h, truthy, hv]
      rw [if_pos hc, h]
      simp only [Option.getD_some]
      have h1 : SubstrOf v (anchor v (ex.name.getD "")) := by
        unfold anchor
        exact substr_right _ (substr_right _ (substr_right _ (substr_end _ v)))
      exact substr_trans h1
        (substr_right _ (substr_right _ (substr_right _ (substr_right _
          (substr_right _ (substr_end workOutNotification.exDivPreUrl _))))))

/-- The fragment of a listed exercise occurs in the full one-shot HTML. -/
theorem dw_fragment_substr (e : DayEntry) (ex : Exercise)
    (hex : ex ∈ e.exercises.getD []) :
    SubstrOf (daily_workout.renderExercise ex) (daily_workout.build_workout_html e) := by
  unfold daily_workout.build_workout_html
  exact substr_right _ (substr_left _
    (strConcat_mem_substr daily_workout.renderExercise _ ex hex))

/-- The fragment of a listed exercise occurs in the full long-running HTML. -/
theorem wn_fragment_substr (e : DayEntry) (ex : Exercise)
    (hex : ex ∈ e.exercises.getD []) :
    SubstrOf (workOutNotification.renderExercise ex)
      (workOutNotification.build_workout_html e) := by
  unfold workOutNotification.build_workout_html
  exact substr_right _ (substr_left _
    (strConcat_mem_substr workOutNotification.renderExercise _ ex hex))

/-- A present title occurs verbatim in the full one-shot HTML. -/
theorem dw_title_substr (e : DayEntry) (v : String) (h : e.title = some v) :
    SubstrOf v (daily_workout.build_workout_html e) := by
  unfold daily_workout.build_workout_html
  rw [h]
  simp only [Option.getD_some]
  exact substr_right _ (substr_right _ (substr_right _ (substr_end _ v)))

/-- A present title occurs verbatim in the full long-running HTML. -/
theorem wn_title_substr (e : DayEntry) (v : String) (h : e.title = some v) :
    SubstrOf v (workOutNotification.build_workout_html e) := by
  unfold workOutNotification.build_workout_html
  rw [h]
  simp only [Option.getD_some]
  exact substr_right _ (substr_right _ (substr_right _ (substr_end _ v)))

set_option maxRecDepth 10000

/-- Claim C1, counterexample: with a two-entry day list the claimed entry
at weekday index 5 is `days[5 mod 2] = days[1]`, but the one-shot selector
exits fatally (`none`), and the long-running selector raises
`AttributeError` from its broken clock read instead of returning any
entry. -/
theorem c1_counterexample :
    daily_workout.get_today_workout [dayA, dayB] 5 = none ∧
    [dayA, dayB][5 % 2]? = some dayB ∧
    workOutNotification.get_today_workout [dayA, dayB] = .error .attributeError ∧
    Except.error PyExc.attributeError ≠ (Except.ok dayB : Except PyExc DayEntry) :=
  ⟨by decide, by decide, rfl, fun h => Except.noConfusion h⟩

/-- Claim C1 as amended: for a weekday index 0-6 that is in bounds for a
non-empty day list, the one-shot selector returns `days[index]`, which
coincides with `days[index mod len(days)]` (no modulo is applied out of
bounds: the one-shot variant exits there instead); the long-running
selector returns no entry at all — its first statement raises
`AttributeError` on every call. -/
theorem c1_selector_in_bounds (days : List DayEntry) (idx : Nat) (h6 : idx ≤ 6)
    (h : idx < days.length) :
    daily_workout.get_today_workout days idx = days[idx % days.length]? ∧
    workOutNotification.get_today_workout days = .error .attributeError := by
  have _hweek : idx ≤ 6 := h6
  have hm : idx % days.length = idx := Nat.mod_eq_of_lt h
  rw [hm]
  refine ⟨?_, rfl⟩
  unfold daily_workout.get_today_workout
  rw [dif_pos h]
  simp [List.getElem?_eq_getElem h, List.get_eq_getElem]

/-- Witness for the amended claim C1 at a concrete in-bounds index. -/
theorem c1_witness :
    daily_workout.get_today_workout [dayA, dayB] 1 = [dayA, dayB][1 % 2]? ∧
    workOutNotification.get_today_workout [dayA, dayB] = .error .attributeError :=
  c1_selector_in_bounds [dayA, dayB] 1 (by decide) (by decide)

/-- Claim C2, counterexample: with every configuration value present, the
long-running module crashes with the same startup `NameError` for an empty
document as for a non-empty one — a non-zero exit, but an unconditional
crash raised before the document is read, not a configuration-error signal
about the empty `days` list, and never the explicit `exit(1)` path. -/
theorem c2_counterexample :
    workOutNotification.module_run goodEnv (some []) =
      .crashed (.nameError "load_dotenv") ∧
    workOutNotification.module_run goodEnv (some [sampleDay]) =
      .crashed (.nameError "load_dotenv") ∧
    workOutNotification.module_run goodEnv (some []) ≠
      workOutNotification.ModuleInit.exited := by decide

/-- Claim C2 as amended: on an empty or absent `days` list the one-shot
variant terminates with exit 1 and no mail attempt, signalling the
configuration error; the long-running variant also terminates non-zero
without attempting mail, but through its unconditional startup `NameError`,
raised before the document is read and identical for every document — its
warn-and-continue handling of an empty list is dead code. -/
theorem c2_empty_days (doc : Option (List DayEntry)) (h : doc.getD [] = [])
    (env : Env) (wd : Nat) (t : Option SmtpErr) (doc' : Option (List DayEntry)) :
    daily_workout.run doc wd env t = ⟨1, false, none⟩ ∧
    workOutNotification.module_run env doc = .crashed (.nameError "load_dotenv") ∧
    workOutNotification.module_run env doc = workOutNotification.module_run env doc' := by
  refine ⟨?_, rfl, rfl⟩
  simp [daily_workout.run, daily_workout.load_workouts, h]

/-- Witness for the amended claim C2 at a concrete empty document. -/
theorem c2_witness :
    daily_workout.run (some []) 0 goodEnv none = ⟨1, false, none⟩ ∧
    workOutNotification.module_run goodEnv (some []) =
      .crashed (.nameError "load_dotenv") ∧
    workOutNotification.module_run goodEnv (some []) =
      workOutNotification.module_run goodEnv (some [sampleDay]) :=
  c2_empty_days (some []) rfl goodEnv 0 none (some [sampleDay])

/-- Claim C3, counterexample: a missing `title` is replaced by the
placeholder `"Workout"`, not the empty string, in both renderers. -/
theorem c3_counterexample :
    daily_workout.build_workout_html ⟨none, some []⟩ ≠
      daily_workout.build_workout_html ⟨some "", some []⟩ ∧
    workOutNotification.build_workout_html ⟨none, some []⟩ ≠
      workOutNotification.build_workout_html ⟨some "", some []⟩ ∧
    daily_workout.build_workout_html ⟨none, some []⟩ =
      daily_workout.build_workout_html ⟨some "Workout", some []⟩ :=
  ⟨by decide, by decide, rfl⟩

/-- Claim C3 as amended: a missing `sets` or `rest` renders exactly like the
empty string, a missing `title` renders exactly like the placeholder
`"Workout"`, and rendering is total, so it never raises. -/
theorem c3_missing_fields (exs : Option (List Exercise)) (n s r u : Option String) :
    daily_workout.build_workout_html ⟨none, exs⟩ =
      daily_workout.build_workout_html ⟨some "Workout", exs⟩ ∧
    workOutNotification.build_workout_html ⟨none, exs⟩ =
      workOutNotification.build_workout_html ⟨some "Workout", exs⟩ ∧
    daily_workout.renderExercise ⟨n, none, r, u⟩ =
      daily_workout.renderExercise ⟨n, some "", r, u⟩ ∧
    daily_workout.renderExercise ⟨n, s, none, u⟩ =
      daily_workout.renderExercise ⟨n, s, some "", u⟩ ∧
    workOutNotification.renderExercise ⟨n, none, r, u⟩ =
      workOutNotification.renderExercise ⟨n, some "", r, u⟩ ∧
    workOutNotification.renderExercise ⟨n, s, none, u⟩ =
      workOutNotification.renderExercise ⟨n, s, some "", u⟩ :=
  ⟨rfl, rfl, rfl, rfl, rfl, rfl⟩

/-- Claim C4, counterexample: with all five environment values present and
`SMTP_PORT="abc"`, the one-shot program opens no connection but the
`ValueError` is caught inside the dispatcher, logged as a generic send
error, and the process finishes with exit code 0 — no fatal configuration
signal. -/
theorem c4_counterexample :
    envAllPresent badPortEnv = true ∧
    daily_workout.run (some [sampleDay]) 0 badPortEnv none =
      ⟨0, false, some (.errorLogged "Unexpected error when sending email")⟩ := by decide

/-- Claim C4 as amended: with all five values present and an unparseable
`SMTP_PORT`, the one-shot variant makes no network attempt but catches the
parse failure inside its dispatcher, logs it generically, and exits
normally with code 0; the long-running variant terminates non-zero before
any network attempt, but with its unconditional startup `NameError`, raised
before any environment value is read — the outcome is identical for every
environment, so the port-parse exit path of lines 66-70 never produces the
signal. -/
theorem c4_bad_port (env : Env) (hall : envAllPresent env = true)
    (hbad : pyInt (env.smtp_port.getD "") = none)
    (days : List DayEntry) (wd : Nat) (hwd : wd < days.length)
    (t : Option SmtpErr) (env' : Env) :
    daily_workout.run (some days) wd env t =
      ⟨0, false, some (.errorLogged (daily_workout.logFor .valueError))⟩ ∧
    workOutNotification.module_run env (some days) =
      .crashed (.nameError "load_dotenv") ∧
    workOutNotification.module_run env (some days) =
      workOutNotification.module_run env' (some days) := by
  refine ⟨?_, rfl, rfl⟩
  cases days with
  | nil => simp at hwd
  | cons d ds =>
      have hwd' : wd < ds.length + 1 := by simpa using hwd
      simp [daily_workout.run, daily_workout.load_workouts,
        daily_workout.get_today_workout, hwd', hall,
        daily_workout.send_email, daily_workout.send_email_try, hbad]

/-- Witness for the amended claim C4 at the concrete bad-port environment. -/
theorem c4_witness :
    daily_workout.run (some [sampleDay]) 0 badPortEnv none =
      ⟨0, false, some (.errorLogged (daily_workout.logFor .valueError))⟩ ∧
    workOutNotification.module_run badPortEnv (some [sampleDay]) =
      .crashed (.nameError "load_dotenv") ∧
    workOutNotification.module_run badPortEnv (some [sampleDay]) =
      workOutNotification.module_run goodEnv (some [sampleDay]) :=
  c4_bad_port badPortEnv (by decide) (by decide) [sampleDay] 0 (by decide) none goodEnv

/-- Claim C5, counterexample: a pending authentication failure is never
caught by the long-running dispatcher — the dispatcher raises
`AttributeError` at its first statement, outside its `try` block, so an
exception escapes it on every call and the transport failure is neither
reached nor logged — and a pass of the scheduler loop body raises
`NameError` instead of proceeding to the next polling cycle. -/
theorem c5_counterexample :
    workOutNotification.send_daily_workout [sampleDay] (some .authRejected) =
      .error .attributeError ∧
    workOutNotification.loop_iteration = .error (.nameError "schedule") :=
  ⟨rfl, rfl⟩

/-- Claim C5 as amended: every transport-level failure raised inside the
one-shot dispatcher is caught and logged — the dispatcher returns normally
with an `errorLogged` outcome and the process then finishes with exit
code 0; the long-running dispatcher, in contrast, never reaches mail
submission: it raises `AttributeError` before its `try` block on every
call, so an exception always escapes it, and the scheduler loop body raises
`NameError` rather than proceeding to the next polling cycle. -/
theorem c5_transport_errors_contained (port : String) (e : SmtpErr)
    (days : List DayEntry) (wd : Nat) (env : Env)
    (hp : (pyInt port).isSome = true)
    (hwd : wd < days.length) (henv : envAllPresent env = true)
    (t : Option SmtpErr) :
    (daily_workout.send_email port (some e)).result =
      .errorLogged (daily_workout.logFor (.smtpError e)) ∧
    (daily_workout.run (some days) wd env (some e)).exitCode = 0 ∧
    workOutNotification.send_daily_workout days t = .error .attributeError ∧
    workOutNotification.loop_iteration = .error (.nameError "schedule") := by
  obtain ⟨p, hp'⟩ := Option.isSome_iff_exists.mp hp
  refine ⟨?_, ?_, rfl, rfl⟩
  · unfold daily_workout.send_email daily_workout.send_email_try
    rw [hp']
    rfl
  · cases days with
    | nil => simp at hwd
    | cons d ds =>
        have hwd' : wd < ds.length + 1 := by simpa using hwd
        simp [daily_workout.run, daily_workout.load_workouts,
          daily_workout.get_today_workout, hwd', henv]

/-- Witness for the amended claim C5 at a concrete authentication failure. -/
theorem c5_witness :
    (daily_workout.send_email "587" (some .authRejected)).result =
      .errorLogged (daily_workout.logFor (.smtpError .authRejected)) ∧
    (daily_workout.run (some [sampleDay]) 0 goodEnv (some .authRejected)).exitCode = 0 ∧
    workOutNotification.send_daily_workout [sampleDay] (some .authRejected) =
      .error .attributeError ∧
    workOutNotification.loop_iteration = .error (.nameError "schedule") :=
  c5_transport_errors_contained "587" .authRejected [sampleDay] 0 goodEnv
    (by decide) (by decide) (by decide) (some .authRejected)

/-- Claim C6, counterexample: the long-running selector does not silently
return `days[0]` on an out-of-bounds index, nor the empty mapping on an
empty list — its broken clock read raises `AttributeError` before the
bounds check on every call, so it returns nothing at all. -/
theorem c6_counterexample :
    workOutNotification.get_today_workout [dayA, dayB] = .error .attributeError ∧
    Except.error PyExc.attributeError ≠ (Except.ok dayA : Except PyExc DayEntry) ∧
    workOutNotification.get_today_workout [] = .error .attributeError ∧
    Except.error PyExc.attributeError ≠
      (Except.ok DayEntry.emptyMap : Except PyExc DayEntry) :=
  ⟨rfl, fun h => Except.noConfusion h, rfl, fun h => Except.noConfusion h⟩

/-- Claim C6 as amended: on an out-of-bounds weekday index the one-shot
selector is fatal (`none`, modelling `exit(1)`), as claimed; the
long-running selector raises `AttributeError` before its bounds check on
every call, and the silent fallback to the head of the list — or to the
empty mapping for an empty list — exists only in its dead code. -/
theorem c6_out_of_range_policies (days : List DayEntry) (wd : Nat)
    (h : days.length ≤ wd) :
    daily_workout.get_today_workout days wd = none ∧
    workOutNotification.get_today_workout days = .error .attributeError ∧
    workOutNotification.selectorFallback days wd = days.headD DayEntry.emptyMap ∧
    ([] : List DayEntry).headD DayEntry.emptyMap = DayEntry.emptyMap := by
  have hn : ¬ wd < days.length := Nat.not_lt.mpr h
  refine ⟨?_, rfl, ?_, rfl⟩
  · unfold daily_workout.get_today_workout
    rw [dif_neg hn]
  · unfold workOutNotification.selectorFallback
    rw [dif_neg hn]

/-- Witness for the amended claim C6 at a two-entry list and index 7. -/
theorem c6_witness :
    daily_workout.get_today_workout [dayA, dayB] 7 = none ∧
    workOutNotification.get_today_workout [dayA, dayB] = .error .attributeError ∧
    workOutNotification.selectorFallback [dayA, dayB] 7 =
      [dayA, dayB].headD DayEntry.emptyMap ∧
    ([] : List DayEntry).headD DayEntry.emptyMap = DayEntry.emptyMap :=
  c6_out_of_range_policies [dayA, dayB] 7 (by decide)

/-- Claim C7: both renderers are pure functions of the day entry, so equal
inputs give byte-identical output strings. -/
theorem c7_renderer_deterministic (e1 e2 : DayEntry) (h : e1 = e2) :
    daily_workout.build_workout_html e1 = daily_workout.build_workout_html e2 ∧
    workOutNotification.build_workout_html e1 = workOutNotification.build_workout_html e2 := by
  subst h
  exact ⟨rfl, rfl⟩

/-- Witness for claim C7 at the sample day entry. -/
theorem c7_witness :
    daily_workout.build_workout_html sampleDay = daily_workout.build_workout_html sampleDay ∧
    workOutNotification.build_workout_html sampleDay =
      workOutNotification.build_workout_html sampleDay :=
  c7_renderer_deterministic sampleDay sampleDay rfl

/-- Claim C8, counterexample: an exercise whose `url` key is present but
holds the empty string is rendered without any anchor markup by both
renderers, against the claim that a present `url` always yields an anchor. -/
theorem c8_counterexample :
    (⟨some "Squat", some "5x5", some "90s", some ""⟩ : Exercise).url = some "" ∧
    ¬ SubstrOf "<a "
      (daily_workout.renderExercise ⟨some "Squat", some "5x5", some "90s", some ""⟩) ∧
    ¬ SubstrOf "<a "
      (workOutNotification.renderExercise ⟨some "Squat", some "5x5", some "90s", some ""⟩) := by
  refine ⟨rfl, ?_, ?_⟩ <;>
  · intro hsub
    exact absurd ((hasSub_iff _ _).mpr hsub) (by decide)

/-- Claim C8 as amended: when `url` is present and non-empty both renderers
embed an anchor with that url as href wrapping the name; when `url` is
absent the fragment is the fixed template around the bare name, and those
fixed template pieces contain no anchor markup. -/
theorem c8_anchor_policy (n s r u : String) (hu : u ≠ "") :
    SubstrOf (anchor u n)
      (daily_workout.renderExercise ⟨some n, some s, some r, some u⟩) ∧
    SubstrOf (anchor u n)
      (workOutNotification.renderExercise ⟨some n, some s, some r, some u⟩) ∧
    daily_workout.renderExercise ⟨some n, some s, some r, none⟩ =
      daily_workout.exDivPre ++ n ++ daily_workout.exDivMid1 ++ s ++
        daily_workout.exDivMid2 ++ r ++ daily_workout.exDivSuf ∧
    workOutNotification.renderExercise ⟨some n, some s, some r, none⟩ =
      workOutNotification.exDivPreNoUrl ++ n ++ workOutNotification.exDivMid1NoUrl ++ s ++
        workOutNotification.exDivMid2 ++ r ++ workOutNotification.exDivSuf ∧
    ¬ SubstrOf "<a " (daily_workout.exDivPre ++ daily_workout.exDivMid1 ++
        daily_workout.exDivMid2 ++ daily_workout.exDivSuf) ∧
    ¬ SubstrOf "<a " (workOutNotification.exDivPreNoUrl ++ workOutNotification.exDivMid1NoUrl ++
        workOutNotification.exDivMid2 ++ workOutNotification.exDivSuf) := by
  refine ⟨?_, ?_, rfl, rfl, ?_, ?_⟩
  · unfold daily_workout.renderExercise
    simp only [Option.getD_some]
    rw [if_neg hu]
    exact substr_right _ (substr_right _ (substr_right _ (substr_right _
      (substr_right _ (substr_end _ _)))))
  · have hc : truthy (some u) = true := by simp [truthy, hu]
    unfold workOutNotification.renderExercise
    rw [if_pos hc]
    simp only [Option.getD_some]
    exact substr_right _ (substr_right _ (substr_right _ (substr_right _
      (substr_right _ (substr_end _ _)))))
  · intro hsub
    exact absurd ((hasSub_iff _ _).mpr hsub) (by decide)
  · intro hsub
    exact absurd ((hasSub_iff _ _).mpr hsub) (by decide)

/-- Witness for the amended claim C8 at the sample exercise. -/
theorem c8_witness :
    SubstrOf (anchor "http://example.com/squat" "Squat")
      (daily_workout.renderExercise
        ⟨some "Squat", some "5x5", some "90s", some "http://example.com/squat"⟩) ∧
    SubstrOf (anchor "http://example.com/squat" "Squat")
      (workOutNotification.renderExercise
        ⟨some "Squat", some "5x5", some "90s", some "http://example.com/squat"⟩) ∧
    daily_workout.renderExercise ⟨some "Squat", some "5x5", some "90s", none⟩ =
      daily_workout.exDivPre ++ "Squat" ++ daily_workout.exDivMid1 ++ "5x5" ++
        daily_workout.exDivMid2 ++ "90s" ++ daily_workout.exDivSuf ∧
    workOutNotification.renderExercise ⟨some "Squat", some "5x5", some "90s", none⟩ =
      workOutNotification.exDivPreNoUrl ++ "Squat" ++ workOutNotification.exDivMid1NoUrl ++ "5x5" ++
        workOutNotification.exDivMid2 ++ "90s" ++ workOutNotification.exDivSuf ∧
    ¬ SubstrOf "<a " (daily_workout.exDivPre ++ daily_workout.exDivMid1 ++
        daily_workout.exDivMid2 ++ daily_workout.exDivSuf) ∧
    ¬ SubstrOf "<a " (workOutNotification.exDivPreNoUrl ++ workOutNotification.exDivMid1NoUrl ++
        workOutNotification.exDivMid2 ++ workOutNotification.exDivSuf) :=
  c8_anchor_policy "Squat" "5x5" "90s" "http://example.com/squat" (by decide)

/-- Claim C9: neither renderer escapes or sanitises; every present `title`,
`name`, `sets`, `rest` or `url` value of the rendered day entry occurs
character-for-character in the output HTML of both renderers. -/
theorem c9_fields_verbatim (e : DayEntry) (v : String)
    (hv : e.title = some v ∨ ∃ ex, ex ∈ e.exercises.getD [] ∧
      (ex.name = some v ∨ ex.sets = some v ∨ ex.rest = some v ∨ ex.url = some v)) :
    SubstrOf v (daily_workout.build_workout_html e) ∧
    SubstrOf v (workOutNotification.build_workout_html e) := by
  rcases hv with h | ⟨ex, hex, hf⟩
  · exact ⟨dw_title_substr e v h, wn_title_substr e v h⟩
  · exact ⟨substr_trans (dw_field_substr ex v hf) (dw_fragment_substr e ex hex),
      substr_trans (wn_field_substr ex v hf) (wn_fragment_substr e ex hex)⟩

/-- Witness for claim C9: the markup-laden name of a concrete exercise
occurs verbatim in both outputs. -/
theorem c9_witness :
    SubstrOf "<script>alert(1)</script>"
      (daily_workout.build_workout_html
        ⟨some "Day", some [⟨some "<script>alert(1)</script>", some "5x5", some "90s", none⟩]⟩) ∧
    SubstrOf "<script>alert(1)</script>"
      (workOutNotification.build_workout_html
        ⟨some "Day", some [⟨some "<script>alert(1)</script>", some "5x5", some "90s", none⟩]⟩) :=
  c9_fields_verbatim
    ⟨some "Day", some [⟨some "<script>alert(1)</script>", some "5x5", some "90s", none⟩]⟩
    "<script>alert(1)</script>"
    (Or.inr ⟨⟨some "<script>alert(1)</script>", some "5x5", some "90s", none⟩,
      by decide, Or.inl rfl⟩)

/-- Claim C10: an absent exercise `name` is replaced by
`"Unknown Exercise"` in the one-shot renderer and by the empty string in
the long-running renderer, so the two renderers disagree on the same
day entry. -/
theorem c10_name_default_divergence (s r u : Option String) :
    daily_workout.renderExercise ⟨none, s, r, u⟩ =
      daily_workout.renderExercise ⟨some "Unknown Exercise", s, r, u⟩ ∧
    workOutNotification.renderExercise ⟨none, s, r, u⟩ =
      workOutNotification.renderExercise ⟨some "", s, r, u⟩ ∧
    SubstrOf "Unknown Exercise" (daily_workout.build_workout_html nameAbsentDay) ∧
    ¬ SubstrOf "Unknown Exercise" (workOutNotification.build_workout_html nameAbsentDay) ∧
    daily_workout.build_workout_html nameAbsentDay ≠
      workOutNotification.build_workout_html nameAbsentDay := by
  refine ⟨rfl, rfl, ?_, ?_, by decide⟩
  · exact (hasSub_iff _ _).mp (by decide)
  · intro hsub
    exact absurd ((hasSub_iff _ _).mpr hsub) (by decide)

/-- Witness for claim C10 at the concrete nameless exercise. -/
theorem c10_witness :
    daily_workout.renderExercise ⟨none, some "3x10", some "60s", none⟩ =
      daily_workout.renderExercise ⟨some "Unknown Exercise", some "3x10", some "60s", none⟩ ∧
    workOutNotification.renderExercise ⟨none, some "3x10", some "60s", none⟩ =
      workOutNotification.renderExercise ⟨some "", some "3x10", some "60s", none⟩ ∧
    SubstrOf "Unknown Exercise" (daily_workout.build_workout_html nameAbsentDay) ∧
    ¬ SubstrOf "Unknown Exercise" (workOutNotification.build_workout_html nameAbsentDay) ∧
    daily_workout.build_workout_html nameAbsentDay ≠
      workOutNotification.build_workout_html nameAbsentDay :=
  c10_name_default_divergence (some "3x10") (some "60s") none
